import Mathlib

/-!
Verification of the clima_chileno_gcp pipeline core logic.

The development shallowly embeds the two Cloud Functions of the repository:

* `src/extractor/main.py` — the batch extractor that polls the weather API
  for a fixed list of Chilean locations and publishes enriched readings,
  accumulating a per-batch summary with a three-way overall classification.
* `src/procesador/main.py` — the Pub/Sub consumer that decodes, validates,
  archives to Cloud Storage and flattens each message into a BigQuery row.

JSON values are modelled by the inductive type `Json` (objects as ordered
association lists, mirroring Python dict insertion order; numbers restricted
to integers, which is sufficient because none of the verified properties
computes with numeric field values).  External collaborators (base64, JSON
parsing, the blob store, the analytical sink, the wall clock) are passed in
as explicit parameters, and the handlers return an explicit trace of the
storage effects they attempted.
-/


/-- JSON-like values: the payload universe of both Cloud Functions.
Objects are ordered association lists (Python dicts preserve insertion
order and have unique keys). -/
inductive Json where
  | null : Json
  | bool (b : Bool) : Json
  | num (n : Int) : Json
  | str (s : String) : Json
  | arr (elems : List Json) : Json
  | obj (campos : List (String × Json)) : Json

/-- Embedding of `extraer_valor_seguro` (src/procesador/main.py, lines
221-239): walk the key path with a cursor; at each step, if the cursor is a
mapping containing the key, advance, otherwise return the default at once. -/
def extraer_valor_seguro (datos : Json) (ruta : List String) (predeterminado : Json) : Json :=
  match ruta with
  | [] => datos
  | clave :: resto =>
    match datos with
    | Json.obj campos =>
      match campos.lookup clave with
      | some valor => extraer_valor_seguro valor resto predeterminado
      | none => predeterminado
    | _ => predeterminado

/-- Modelled from the spec's words (§4.1 `extractPath`): the successful
resolution of a key path through nested mappings, as an `Option`.  `some v`
exactly when every path segment finds the cursor to be a mapping containing
that key and `v` is the leaf reached after consuming all keys. -/
def resolucion_spec (datos : Json) (ruta : List String) : Option Json :=
  match ruta with
  | [] => some datos
  | clave :: resto =>
    match datos with
    | Json.obj campos =>
      match campos.lookup clave with
      | some valor => resolucion_spec valor resto
      | none => none
    | _ => none

/-- A parsed timestamp, mirroring the fields of a Python `datetime`
(year..microsecond plus an optional fixed UTC offset in minutes; `none`
models a naive datetime, `some 0` the UTC timezone). -/
structure Fecha where
  year : Nat
  month : Nat
  day : Nat
  hour : Nat
  minute : Nat
  second : Nat
  micro : Nat
  offsetMin : Option Int
deriving DecidableEq, Repr

/-- Zero-pad a decimal number on the left to the given width, as Python
zero-padded format specifiers (and strftime) do. -/
def pad (ancho n : Nat) : String :=
  let s := toString n
  String.mk (List.replicate (ancho - s.length) '0') ++ s

def valorDigito (c : Char) : Nat := c.toNat - 48

/-- Read exactly two decimal digits from the front of a character list. -/
def dosDigitos : List Char → Option (Nat × List Char)
  | c1 :: c2 :: resto =>
    if c1.isDigit && c2.isDigit then some (10 * valorDigito c1 + valorDigito c2, resto)
    else none
  | _ => none

def esBisiesto (y : Nat) : Bool := y % 4 == 0 && (y % 100 != 0 || y % 400 == 0)

def diasEnMes (y m : Nat) : Nat :=
  if m == 2 then (if esBisiesto y then 29 else 28)
  else if m == 4 || m == 6 || m == 9 || m == 11 then 30
  else 31

/-- Parse a UTC-offset suffix of the form sign, HH, colon, MM (the shape
produced by replacing a trailing Z with +00:00, and the shape datetime
renders for aware timestamps). -/
def analizarDesfase (cs : List Char) : Option Int :=
  match cs with
  | signo :: resto =>
    if signo == '+' || signo == '-' then
      match dosDigitos resto with
      | some (hh, ':' :: resto2) =>
        match dosDigitos resto2 with
        | some (mm, []) =>
          if hh ≤ 23 && mm ≤ 59 then
            let total : Int := Int.ofNat (hh * 60 + mm)
            some (if signo == '-' then -total else total)
          else none
        | _ => none
      | _ => none
    else none
  | [] => none

/-- Parse a fractional-second suffix: a dot followed by one to six digits,
scaled to microseconds. -/
def analizarFraccion (cs : List Char) : Option (Nat × List Char) :=
  match cs with
  | '.' :: resto =>
    let digitos := resto.takeWhile Char.isDigit
    let resto2 := resto.dropWhile Char.isDigit
    if digitos.length == 0 || digitos.length > 6 then none
    else some ((digitos.foldl (fun a c => 10 * a + valorDigito c) 0) * 10 ^ (6 - digitos.length), resto2)
  | _ => none

/-- After the clock fields, the string must either end or carry an offset. -/
def finDeHora (h mi se mic : Nat) (cs : List Char) : Option (Nat × Nat × Nat × Nat × Option Int) :=
  match cs with
  | [] => some (h, mi, se, mic, none)
  | _ => (analizarDesfase cs).map fun off => (h, mi, se, mic, some off)

/-- Parse the clock part HH[:MM[:SS[.ffffff]]] with optional offset. -/
def analizarHora (cs : List Char) : Option (Nat × Nat × Nat × Nat × Option Int) :=
  match dosDigitos cs with
  | none => none
  | some (h, resto) =>
    if h > 23 then none else
    match resto with
    | ':' :: resto1 =>
      match dosDigitos resto1 with
      | none => none
      | some (mi, resto2) =>
        if mi > 59 then none else
        match resto2 with
        | ':' :: resto3 =>
          match dosDigitos resto3 with
          | none => none
          | some (se, resto4) =>
            if se > 59 then none else
            match analizarFraccion resto4 with
            | some (mic, resto5) => finDeHora h mi se mic resto5
            | none => finDeHora h mi se 0 resto4
        | _ => finDeHora h mi 0 0 resto2
    | _ => finDeHora h 0 0 0 resto

/-- Embedding of Python `datetime.fromisoformat`: date YYYY-MM-DD, then an
optional single separator character and a clock part, with calendar
validation (month, day-in-month with leap years, clock ranges). Returns
`none` where Python raises ValueError. -/
def fromisoformat (s : String) : Option Fecha :=
  match s.data with
  | y1 :: y2 :: y3 :: y4 :: '-' :: m1 :: m2 :: '-' :: d1 :: d2 :: resto =>
    if y1.isDigit && y2.isDigit && y3.isDigit && y4.isDigit &&
        m1.isDigit && m2.isDigit && d1.isDigit && d2.isDigit then
      let y := 1000 * valorDigito y1 + 100 * valorDigito y2 + 10 * valorDigito y3 + valorDigito y4
      let mo := 10 * valorDigito m1 + valorDigito m2
      let d := 10 * valorDigito d1 + valorDigito d2
      if 1 ≤ y && 1 ≤ mo && mo ≤ 12 && 1 ≤ d && d ≤ diasEnMes y mo then
        match resto with
        | [] => some ⟨y, mo, d, 0, 0, 0, 0, none⟩
        | _sep :: restoHora =>
          (analizarHora restoHora).map fun (h, mi, se, mic, off) => ⟨y, mo, d, h, mi, se, mic, off⟩
      else none
    else none
  | _ => none

/-- Embedding of the Python idiom `.replace('Z', '+00:00')` used before
every `fromisoformat` call in the source: every occurrence of the literal
character Z is replaced by +00:00. -/
def reemplazarZ (s : String) : String :=
  String.mk (s.data.foldr
    (fun c acc => if c == 'Z' then '+' :: '0' :: '0' :: ':' :: '0' :: '0' :: acc else c :: acc) [])

/-- Embedding of `datetime.isoformat`: YYYY-MM-DDTHH:MM:SS, fractional
seconds only when nonzero, offset +HH:MM only when aware. -/
def isoformat (f : Fecha) : String :=
  pad 4 f.year ++ "-" ++ pad 2 f.month ++ "-" ++ pad 2 f.day ++ "T" ++
    pad 2 f.hour ++ ":" ++ pad 2 f.minute ++ ":" ++ pad 2 f.second ++
    (if f.micro == 0 then "" else "." ++ pad 6 f.micro) ++
    (match f.offsetMin with
     | none => ""
     | some off =>
       (if off < 0 then "-" else "+") ++ pad 2 (off.natAbs / 60) ++ ":" ++ pad 2 (off.natAbs % 60))

/-- Embedding of `marca_tiempo.strftime('%Y%m%d_%H%M%S')` from
`construir_ruta_gcs`: all fields zero-padded decimals. -/
def strftime_marca (f : Fecha) : String :=
  pad 4 f.year ++ pad 2 f.month ++ pad 2 f.day ++ "_" ++
    pad 2 f.hour ++ pad 2 f.minute ++ pad 2 f.second

/-- Embedding of `.lower().replace(' ', '_')` applied to the location name
in `construir_ruta_gcs` (ASCII case mapping; the configured names contain
no non-ASCII uppercase letters). -/
def minusculas_con_guiones (nombre : String) : String :=
  String.mk ((nombre.data.map Char.toLower).map (fun c => if c == ' ' then '_' else c))

/-- The exception taxonomy of `src/procesador/main.py`: the four domain
exception classes plus `excepcion` for an untranslated Python exception
(TypeError and the like) escaping a function that does not catch it. -/
inductive ErrorProc where
  | validacion (mensaje : String)
  | almacenamientoGCS (mensaje : String)
  | almacenamientoBigQuery (mensaje : String)
  | procesamiento (mensaje : String)
  | excepcion (mensaje : String)
deriving DecidableEq, Repr

/-- Embedding of `construir_ruta_gcs` (src/procesador/main.py, lines
130-161): key is the location name lowercased with spaces as underscores,
then year/month/day directories, then the strftime file name.  Any failure
inside (missing key, non-string value, unparsable timestamp) is caught and
re-raised as `ErrorAlmacenamientoGCS`. -/
def construir_ruta_gcs (datos : Json) : Except ErrorProc String :=
  match datos with
  | Json.obj campos =>
    match campos.lookup "nombre_ubicacion", campos.lookup "marca_tiempo_extraccion" with
    | some (Json.str nombre), some (Json.str marca) =>
      match fromisoformat (reemplazarZ marca) with
      | some f =>
        Except.ok (minusculas_con_guiones nombre ++ "/" ++ pad 4 f.year ++ "/" ++
          pad 2 f.month ++ "/" ++ pad 2 f.day ++ "/" ++ strftime_marca f ++ ".json")
      | none => Except.error (ErrorProc.almacenamientoGCS "Error al construir ruta GCS: marca de tiempo invalida")
    | _, _ => Except.error (ErrorProc.almacenamientoGCS "Error al construir ruta GCS: datos invalidos")
  | _ => Except.error (ErrorProc.almacenamientoGCS "Error al construir ruta GCS: datos invalidos")

/-- A monitored location from the `UBICACIONES_MONITOREO` constant of
`src/extractor/main.py` (coordinates as exact rationals). -/
structure Ubicacion where
  nombre : String
  latitud : Rat
  longitud : Rat
  descripcion : String
deriving DecidableEq, Repr

/-- The fixed location list of `src/extractor/main.py`, lines 39-171. -/
def UBICACIONES_MONITOREO : List Ubicacion :=
  [⟨"Arica", -18.4746, -70.2979, "Arica, Chile - Ciudad de la Eterna Primavera"⟩,
   ⟨"Iquique", -20.2307, -70.1355, "Iquique, Chile - Playas y Zona Franca"⟩,
   ⟨"San Pedro de Atacama", -22.9098, -68.1995, "San Pedro de Atacama, Chile - Desierto y Turismo Astronómico"⟩,
   ⟨"La Serena", -29.9027, -71.2519, "La Serena, Chile - Playas y Valle del Elqui"⟩,
   ⟨"Viña del Mar", -33.0246, -71.5516, "Viña del Mar, Chile - Ciudad Jardín"⟩,
   ⟨"Valparaíso", -33.0472, -71.6127, "Valparaíso, Chile - Puerto Principal y Patrimonio UNESCO"⟩,
   ⟨"Santiago", -33.4489, -70.6693, "Santiago, Chile - Capital y Región Metropolitana"⟩,
   ⟨"Farellones", -33.3558, -70.2989, "Farellones, Chile - Centro de Esquí Cordillera de Los Andes"⟩,
   ⟨"Pichilemu", -34.3870, -72.0033, "Pichilemu, Chile - Capital del Surf"⟩,
   ⟨"Concepción", -36.8270, -73.0498, "Concepción, Chile - Capital del Biobío"⟩,
   ⟨"Temuco", -38.7359, -72.5904, "Temuco, Chile - Puerta de La Araucanía"⟩,
   ⟨"Pucón", -39.2819, -71.9755, "Pucón, Chile - Turismo Aventura y Volcán Villarrica"⟩,
   ⟨"Valdivia", -39.8142, -73.2459, "Valdivia, Chile - Ciudad de los Ríos"⟩,
   ⟨"Puerto Varas", -41.3194, -72.9833, "Puerto Varas, Chile - Región de los Lagos"⟩,
   ⟨"Puerto Montt", -41.4693, -72.9424, "Puerto Montt, Chile - Puerta de la Patagonia"⟩,
   ⟨"Castro", -42.4827, -73.7622, "Castro, Chiloé - Palafitos y Cultura Chilota"⟩,
   ⟨"Coyhaique", -45.5752, -72.0662, "Coyhaique, Chile - Capital de Aysén"⟩,
   ⟨"Puerto Natales", -51.7283, -72.5085, "Puerto Natales, Chile - Acceso Torres del Paine"⟩,
   ⟨"Punta Arenas", -53.1638, -70.9171, "Punta Arenas, Chile - Ciudad Austral del Estrecho"⟩,
   ⟨"Isla de Pascua", -27.1127, -109.3497, "Isla de Pascua (Rapa Nui), Chile - Patrimonio UNESCO"⟩]

/-- Embedding of `obtener_ubicaciones_monitoreo` (src/extractor/main.py,
lines 384-394). -/
def obtener_ubicaciones_monitoreo : List Ubicacion := UBICACIONES_MONITOREO

/-- The outcome of the fetch-enrich-publish unit for one location, supplied
as an oracle (the weather API and Pub/Sub are external collaborators):
success with a message id, one of the two recognized per-item failures
(`ErrorExtraccionClima`, `ErrorPublicacionPubSub`), or any other Python
exception escaping the unit. -/
inductive ResultadoUbicacion where
  | publicado (id_mensaje : String)
  | errorExtraccion (mensaje : String)
  | errorPublicacion (mensaje : String)
  | excepcionInesperada (mensaje : String)
deriving DecidableEq, Repr

def esInesperado : ResultadoUbicacion → Bool
  | ResultadoUbicacion.excepcionInesperada _ => true
  | _ => false

def esFalloReconocido : ResultadoUbicacion → Bool
  | ResultadoUbicacion.errorExtraccion _ => true
  | ResultadoUbicacion.errorPublicacion _ => true
  | _ => false

def mensajeResultado : ResultadoUbicacion → String
  | ResultadoUbicacion.publicado m => m
  | ResultadoUbicacion.errorExtraccion m => m
  | ResultadoUbicacion.errorPublicacion m => m
  | ResultadoUbicacion.excepcionInesperada m => m

/-- One entry of the `detalles` list of the batch response: location name,
final per-item state, and either the message id or the error text. -/
structure Detalle where
  ubicacion : String
  estado : String
  id_mensaje : Option String
  error : Option String
deriving DecidableEq, Repr

/-- The `resultados` response dictionary of `extraer_clima`
(src/extractor/main.py, lines 432-439). -/
structure Resultados where
  estado : String
  total_ubicaciones : Nat
  mensajes_publicados : Nat
  mensajes_fallidos : Nat
  detalles : List Detalle
  errores : List (String × String)
deriving DecidableEq, Repr

/-- The body of the per-location loop (src/extractor/main.py, lines
470-513): on success record the message id and bump the published counter;
on one of the two recognized failures record the error, bump the failed
counter and the errors list; any other exception propagates
(`Except.error`), skipping even the `detalles.append` for this item. -/
def procesar_ubicacion (proceso : Ubicacion → ResultadoUbicacion) (r : Resultados)
    (u : Ubicacion) : Except String Resultados :=
  match proceso u with
  | ResultadoUbicacion.publicado id_mensaje =>
    Except.ok { r with
      mensajes_publicados := r.mensajes_publicados + 1,
      detalles := r.detalles ++ [⟨u.nombre, "exitoso", some id_mensaje, none⟩] }
  | ResultadoUbicacion.errorExtraccion e =>
    Except.ok { r with
      mensajes_fallidos := r.mensajes_fallidos + 1,
      errores := r.errores ++ [(u.nombre, e)],
      detalles := r.detalles ++ [⟨u.nombre, "fallido", none, some e⟩] }
  | ResultadoUbicacion.errorPublicacion e =>
    Except.ok { r with
      mensajes_fallidos := r.mensajes_fallidos + 1,
      errores := r.errores ++ [(u.nombre, e)],
      detalles := r.detalles ++ [⟨u.nombre, "fallido", none, some e⟩] }
  | ResultadoUbicacion.excepcionInesperada e => Except.error e

/-- Sequential loop over the configured locations. -/
def bucle (proceso : Ubicacion → ResultadoUbicacion) :
    List Ubicacion → Resultados → Except String Resultados
  | [], r => Except.ok r
  | u :: resto, r =>
    match procesar_ubicacion proceso r u with
    | Except.ok r2 => bucle proceso resto r2
    | Except.error e => Except.error e

/-- The extractor HTTP response: either the batch summary with a status
code, or the generic failure body of the outer exception handlers
(src/extractor/main.py, lines 543-549). -/
inductive RespuestaExtractor where
  | lote (resultados : Resultados) (codigo : Nat)
  | fallo (error : String) (tipo_error : String) (codigo : Nat)
deriving DecidableEq, Repr

/-- Embedding of `extraer_clima` (src/extractor/main.py, lines 397-549)
parametrized by the location list it loops over and by the per-location
outcome oracle; configuration and API-key acquisition are assumed to have
succeeded (they precede the loop and are external collaborators).  After
the loop, the final state is classified exactly as lines 515-524 do. -/
def extraer_clima_con (ubicaciones : List Ubicacion)
    (proceso : Ubicacion → ResultadoUbicacion) : RespuestaExtractor :=
  let r0 : Resultados :=
    { estado := "exitoso", total_ubicaciones := ubicaciones.length,
      mensajes_publicados := 0, mensajes_fallidos := 0, detalles := [], errores := [] }
  match bucle proceso ubicaciones r0 with
  | Except.error e => RespuestaExtractor.fallo ("Error inesperado: " ++ e) "desconocido" 500
  | Except.ok r =>
    if r.mensajes_fallidos == r.total_ubicaciones then
      RespuestaExtractor.lote { r with estado := "fallido" } 500
    else if r.mensajes_fallidos > 0 then
      RespuestaExtractor.lote { r with estado := "parcial" } 207
    else
      RespuestaExtractor.lote { r with estado := "exitoso" } 200

/-- `extraer_clima` as deployed: the loop runs over the fixed configured
location list. -/
def extraer_clima (proceso : Ubicacion → ResultadoUbicacion) : RespuestaExtractor :=
  extraer_clima_con obtener_ubicaciones_monitoreo proceso

/-- The overall outcome recorded in the response (the generic failure body
carries the literal state fallido). -/
def estado_de : RespuestaExtractor → String
  | RespuestaExtractor.lote r _ => r.estado
  | RespuestaExtractor.fallo _ _ _ => "fallido"

/-- The detail row the loop records for one location. -/
def detalle_de (proceso : Ubicacion → ResultadoUbicacion) (u : Ubicacion) : Detalle :=
  match proceso u with
  | ResultadoUbicacion.publicado id_mensaje => ⟨u.nombre, "exitoso", some id_mensaje, none⟩
  | ResultadoUbicacion.errorExtraccion e => ⟨u.nombre, "fallido", none, some e⟩
  | ResultadoUbicacion.errorPublicacion e => ⟨u.nombre, "fallido", none, some e⟩
  | ResultadoUbicacion.excepcionInesperada e => ⟨u.nombre, "inesperado", none, some e⟩

/-- Number of recognized per-item failures in a batch. -/
def fallos (proceso : Ubicacion → ResultadoUbicacion) (l : List Ubicacion) : Nat :=
  (l.filter (fun u => esFalloReconocido (proceso u))).length

/-- Number of successful publishes in a batch. -/
def exitos (proceso : Ubicacion → ResultadoUbicacion) (l : List Ubicacion) : Nat :=
  (l.filter (fun u => (proceso u) matches ResultadoUbicacion.publicado _)).length

/-- The batch summary of a response, when the loop completed (the generic
failure body of the outer handler carries no summary). -/
def resumen_de : RespuestaExtractor → Option Resultados
  | RespuestaExtractor.lote r _ => some r
  | RespuestaExtractor.fallo _ _ _ => none

/-- The `tipo_error` tag of the generic failure body, if any. -/
def tipo_error_de : RespuestaExtractor → Option String
  | RespuestaExtractor.lote _ _ => none
  | RespuestaExtractor.fallo _ tipo _ => some tipo

/-- The HTTP status code of the response. -/
def codigo_de : RespuestaExtractor → Nat
  | RespuestaExtractor.lote _ codigo => codigo
  | RespuestaExtractor.fallo _ _ codigo => codigo

/-- A concrete test oracle: the Santiago fetch fails with a recognized
fetch error, every other location publishes. -/
def proceso_prueba_c4 : Ubicacion → ResultadoUbicacion :=
  fun u =>
    if u.nombre == "Santiago" then ResultadoUbicacion.errorExtraccion "fallo de red"
    else ResultadoUbicacion.publicado "m-1"

/-- Substring test, modelling the Python membership operator on strings. -/
def esSubcadena (aguja pajar : String) : Bool := decide (aguja.data <:+: pajar.data)

/-- The Python expression `clave not in valor`: key lookup on a mapping,
substring test on a string, element membership on a list, and a TypeError
(modelled as `ErrorProc.excepcion`) on any non-iterable value. -/
def py_no_contiene (clave : String) (valor : Json) : Except ErrorProc Bool :=
  match valor with
  | Json.obj campos => Except.ok (campos.lookup clave).isNone
  | Json.str s => Except.ok (!(esSubcadena clave s))
  | Json.arr elems =>
    Except.ok (!(elems.any (fun x => match x with | Json.str s => s == clave | _ => false)))
  | _ => Except.error (ErrorProc.excepcion "TypeError: argumento no iterable")

/-- The Python expression `valor.get(clave, predeterminado)`: defaulting key
lookup on a mapping, AttributeError (modelled as `ErrorProc.excepcion`) on
anything else. -/
def py_get (valor : Json) (clave : String) (predeterminado : Json) : Except ErrorProc Json :=
  match valor with
  | Json.obj campos => Except.ok ((campos.lookup clave).getD predeterminado)
  | _ => Except.error (ErrorProc.excepcion "AttributeError: el valor no tiene el metodo get")

/-- The required top-level keys of `validar_datos_clima`
(src/procesador/main.py, lines 111-116). -/
def campos_requeridos : List String :=
  ["nombre_ubicacion", "coordenadas", "datos_clima_raw", "marca_tiempo_extraccion"]

/-- The `for campo in campos_requeridos` loop of `validar_datos_clima`:
raise `ErrorValidacionDatos` on the first missing field. -/
def verificar_campos (datos : Json) : List String → Except ErrorProc Unit
  | [] => Except.ok ()
  | campo :: resto =>
    match py_no_contiene campo datos with
    | Except.error e => Except.error e
    | Except.ok true => Except.error (ErrorProc.validacion ("Campo requerido faltante: " ++ campo))
    | Except.ok false => verificar_campos datos resto

/-- Embedding of `validar_datos_clima` (src/procesador/main.py, lines
101-127): all four required keys must be present, then the coordinates
value (defaulting to an empty mapping when absent — unreachable, since its
presence was just checked) must contain both latitud and longitud. -/
def validar_datos_clima (datos : Json) : Except ErrorProc Unit :=
  match verificar_campos datos campos_requeridos with
  | Except.error e => Except.error e
  | Except.ok _ =>
    match py_get datos "coordenadas" (Json.obj []) with
    | Except.error e => Except.error e
    | Except.ok coordenadas =>
      match py_no_contiene "latitud" coordenadas with
      | Except.error e => Except.error e
      | Except.ok faltaLat =>
        if faltaLat then Except.error (ErrorProc.validacion "Coordenadas incompletas")
        else
          match py_no_contiene "longitud" coordenadas with
          | Except.error e => Except.error e
          | Except.ok faltaLon =>
            if faltaLon then Except.error (ErrorProc.validacion "Coordenadas incompletas")
            else Except.ok ()

/-- The inner `message` object of a Pub/Sub push event: only its `data`
field (base64 text) is consumed by the decode step. -/
structure MensajePubSub where
  data : Option String
deriving DecidableEq, Repr

/-- The cloud event: `evento_nube.data.get('message', {})`. -/
structure EventoNube where
  mensaje : Option MensajePubSub
deriving DecidableEq, Repr

/-- The external collaborators of the Lander, passed in explicitly: the
base64 decoder and JSON parser (`none` models a raised decoding error), the
blob upload and row insert outcomes (`some e` models a raised storage
error), and the two wall-clock readings taken inside the flattening step
(the fallback row timestamp and the ingestion timestamp). -/
structure Entorno where
  b64decode : String → Option String
  parseJson : String → Option Json
  resultado_subida : Option String
  resultado_insercion : Option String
  ahora1 : Fecha
  ahora2 : Fecha

/-- Embedding of `decodificar_mensaje_pubsub` (src/procesador/main.py,
lines 61-98): absent or empty data, a base64 failure, a UTF-8 failure or a
JSON parse failure all surface as `ErrorValidacionDatos` (the function
catches every exception and re-raises it as a validation error). -/
def decodificar_mensaje_pubsub (env : Entorno) (mensaje : MensajePubSub) : Except ErrorProc Json :=
  match mensaje.data with
  | none => Except.error (ErrorProc.validacion "Mensaje Pub/Sub sin datos")
  | some datos_codificados =>
    if datos_codificados == "" then
      Except.error (ErrorProc.validacion "Mensaje Pub/Sub sin datos")
    else
      match env.b64decode datos_codificados with
      | none => Except.error (ErrorProc.validacion "Error al decodificar mensaje Pub/Sub")
      | some texto =>
        match env.parseJson texto with
        | none => Except.error (ErrorProc.validacion "Error al parsear JSON del mensaje")
        | some datos => Except.ok datos

/-- One escaped character of a JSON string literal, as `json.dumps` with
`ensure_ascii=False` renders it. -/
def escaparCaracter (c : Char) : List Char :=
  if c == '"' then ['\\', '"']
  else if c == '\\' then ['\\', '\\']
  else if c == '\n' then ['\\', 'n']
  else if c == '\t' then ['\\', 't']
  else if c == '\r' then ['\\', 'r']
  else if c == '\x08' then ['\\', 'b']
  else if c == '\x0c' then ['\\', 'f']
  else if c.toNat < 32 then
    '\\' :: 'u' :: '0' :: '0' :: (if c.toNat < 16 then ['0'] else []) ++ Nat.toDigits 16 c.toNat
  else [c]

def escaparCadena (s : String) : String :=
  String.mk (s.data.foldr (fun c acc => escaparCaracter c ++ acc) [])

mutual
/-- Embedding of `json.dumps(valor, ensure_ascii=False)` with the default
separators: objects keep insertion order, elements joined by comma-space,
keys followed by colon-space. -/
def serializar : Json → String
  | Json.null => "null"
  | Json.bool true => "true"
  | Json.bool false => "false"
  | Json.num n => toString n
  | Json.str s => "\"" ++ escaparCadena s ++ "\""
  | Json.arr elems => "[" ++ serializarLista elems ++ "]"
  | Json.obj campos => "\x7b" ++ serializarCampos campos ++ "\x7d"
def serializarLista : List Json → String
  | [] => ""
  | [x] => serializar x
  | x :: resto => serializar x ++ ", " ++ serializarLista resto
def serializarCampos : List (String × Json) → String
  | [] => ""
  | [(k, v)] => "\"" ++ escaparCadena k ++ "\": " ++ serializar v
  | (k, v) :: resto =>
    "\"" ++ escaparCadena k ++ "\": " ++ serializar v ++ ", " ++ serializarCampos resto
end

/-- The BigQuery row assembled by `transformar_datos_para_bigquery`
(src/procesador/main.py, lines 338-374), field for field. -/
structure FilaBigQuery where
  nombre_ubicacion : Json
  latitud : Json
  longitud : Json
  hora_actual : String
  zona_horaria : Json
  temperatura : Json
  sensacion_termica : Json
  punto_rocio : Json
  indice_calor : Json
  sensacion_viento : Json
  condicion_clima : Json
  descripcion_clima : Json
  probabilidad_precipitacion : Json
  precipitacion_acumulada : Json
  presion_aire : Json
  velocidad_viento : Json
  direccion_viento : Json
  visibilidad : Json
  humedad_relativa : Json
  indice_uv : Json
  probabilidad_tormenta : Json
  cobertura_nubes : Json
  es_dia : Json
  marca_tiempo_ingestion : String
  uri_datos_crudos : String
  datos_json_crudo : String

/-- Lines 260-265 of src/procesador/main.py: extract `currentTime` with the
empty string as default, replace Z, parse; on any failure (absent field,
non-string value — whose `.replace` raises AttributeError — or unparsable
text) fall back silently to the current UTC time `ahora`. -/
def fecha_hora_de (datos_clima_raw : Json) (ahora : Fecha) : Fecha :=
  match extraer_valor_seguro datos_clima_raw ["currentTime"] (Json.str "") with
  | Json.str s => (fromisoformat (reemplazarZ s)).getD ahora
  | _ => ahora

/-- Embedding of `transformar_datos_para_bigquery` (src/procesador/main.py,
lines 242-383).  `ahora1` and `ahora2` are the two `datetime.now` readings
(row-timestamp fallback at line 265 and ingestion timestamp at line 371).
The catch-all of the source converts any escaping exception (only the
`.get` attribute errors on non-mapping input are possible) into
`ErrorProcesamientoClima`. -/
def transformar_datos_para_bigquery (datos : Json) (uri_gcs : String) (ahora1 ahora2 : Fecha) :
    Except ErrorProc FilaBigQuery :=
  match py_get datos "datos_clima_raw" (Json.obj []) with
  | Except.error _ =>
    Except.error (ErrorProc.procesamiento "Error al transformar datos para BigQuery")
  | Except.ok datos_clima_raw =>
    match py_get datos "coordenadas" (Json.obj []) with
    | Except.error _ =>
      Except.error (ErrorProc.procesamiento "Error al transformar datos para BigQuery")
    | Except.ok coordenadas =>
      match py_get datos "nombre_ubicacion" Json.null,
            py_get coordenadas "latitud" Json.null,
            py_get coordenadas "longitud" Json.null with
      | Except.ok nombre, Except.ok latitud, Except.ok longitud =>
        Except.ok
          { nombre_ubicacion := nombre,
            latitud := latitud,
            longitud := longitud,
            hora_actual := isoformat (fecha_hora_de datos_clima_raw ahora1),
            zona_horaria := extraer_valor_seguro datos_clima_raw ["timeZone", "id"] Json.null,
            temperatura := extraer_valor_seguro datos_clima_raw ["temperature", "degrees"] Json.null,
            sensacion_termica :=
              extraer_valor_seguro datos_clima_raw ["feelsLikeTemperature", "degrees"] Json.null,
            punto_rocio := extraer_valor_seguro datos_clima_raw ["dewPoint", "degrees"] Json.null,
            indice_calor := extraer_valor_seguro datos_clima_raw ["heatIndex", "degrees"] Json.null,
            sensacion_viento :=
              extraer_valor_seguro datos_clima_raw ["windChill", "degrees"] Json.null,
            condicion_clima :=
              extraer_valor_seguro datos_clima_raw ["weatherCondition", "type"] Json.null,
            descripcion_clima :=
              extraer_valor_seguro datos_clima_raw ["weatherCondition", "description", "text"] Json.null,
            probabilidad_precipitacion :=
              extraer_valor_seguro datos_clima_raw ["precipitation", "probability", "percent"] Json.null,
            precipitacion_acumulada :=
              extraer_valor_seguro datos_clima_raw ["precipitation", "qpf", "quantity"] Json.null,
            presion_aire :=
              extraer_valor_seguro datos_clima_raw ["airPressure", "meanSeaLevelMillibars"] Json.null,
            velocidad_viento :=
              extraer_valor_seguro datos_clima_raw ["wind", "speed", "value"] Json.null,
            direccion_viento :=
              extraer_valor_seguro datos_clima_raw ["wind", "direction", "degrees"] Json.null,
            visibilidad := extraer_valor_seguro datos_clima_raw ["visibility", "distance"] Json.null,
            humedad_relativa := extraer_valor_seguro datos_clima_raw ["relativeHumidity"] Json.null,
            indice_uv := extraer_valor_seguro datos_clima_raw ["uvIndex"] Json.null,
            probabilidad_tormenta :=
              extraer_valor_seguro datos_clima_raw ["thunderstormProbability"] Json.null,
            cobertura_nubes := extraer_valor_seguro datos_clima_raw ["cloudCover"] Json.null,
            es_dia := extraer_valor_seguro datos_clima_raw ["isDaytime"] Json.null,
            marca_tiempo_ingestion := isoformat ahora2,
            uri_datos_crudos := uri_gcs,
            datos_json_crudo := serializar datos_clima_raw }
      | _, _, _ =>
        Except.error (ErrorProc.procesamiento "Error al transformar datos para BigQuery")

/-- A storage side effect attempted by the Lander: the archive (blob)
upload or the analytical (BigQuery) insert. -/
inductive Efecto where
  | subida (ruta : String)
  | insercion (fila : FilaBigQuery)

/-- How one invocation of the Lander handler terminates: normal completion,
normal return after discarding an invalid message (no retry), or an
exception re-raised to the platform (retry). -/
inductive ResultadoHandler where
  | completado (uri : String)
  | descartado (mensaje : String)
  | relanzado (e : ErrorProc)

def esDescartado : ResultadoHandler → Bool
  | ResultadoHandler.descartado _ => true
  | _ => false

def esValidacion : ErrorProc → Bool
  | ErrorProc.validacion _ => true
  | _ => false

/-- Whether a step raised `ErrorValidacionDatos`. -/
def lanzaValidacion {α : Type} : Except ErrorProc α → Bool
  | Except.error e => esValidacion e
  | Except.ok _ => false

/-- The exception clauses of `procesar_clima` (src/procesador/main.py,
lines 511-527): a validation error is logged and swallowed (message
discarded, no retry); storage, processing and unexpected errors re-raise. -/
def traducir_excepcion (e : ErrorProc) : ResultadoHandler :=
  match e with
  | ErrorProc.validacion m => ResultadoHandler.descartado m
  | _ => ResultadoHandler.relanzado e

def NOMBRE_BUCKET : String := "datos-clima-bronce"

/-- Embedding of `procesar_clima` (src/procesador/main.py, lines 434-541):
decode, validate, archive to the bucket (ruta built by
`construir_ruta_gcs`, upload outcome from the environment), flatten, insert.
The second component is the trace of storage effects attempted, in order;
`guardar_en_gcs` is unfolded into the ruta construction and the upload so
the trace can record the upload attempt. -/
def procesar_clima (env : Entorno) (evento : EventoNube) : ResultadoHandler × List Efecto :=
  let mensaje := evento.mensaje.getD ⟨none⟩
  match decodificar_mensaje_pubsub env mensaje with
  | Except.error e => (traducir_excepcion e, [])
  | Except.ok datos =>
    match validar_datos_clima datos with
    | Except.error e => (traducir_excepcion e, [])
    | Except.ok _ =>
      match construir_ruta_gcs datos with
      | Except.error e => (traducir_excepcion e, [])
      | Except.ok ruta =>
        match env.resultado_subida with
        | some e =>
          (traducir_excepcion (ErrorProc.almacenamientoGCS e), [Efecto.subida ruta])
        | none =>
          let uri_gcs := "gs://" ++ NOMBRE_BUCKET ++ "/" ++ ruta
          match transformar_datos_para_bigquery datos uri_gcs env.ahora1 env.ahora2 with
          | Except.error e => (traducir_excepcion e, [Efecto.subida ruta])
          | Except.ok fila =>
            match env.resultado_insercion with
            | some e =>
              (traducir_excepcion (ErrorProc.almacenamientoBigQuery e),
                [Efecto.subida ruta, Efecto.insercion fila])
            | none =>
              (ResultadoHandler.completado uri_gcs, [Efecto.subida ruta, Efecto.insercion fila])

/-- The top-level raw-payload keys consumed by the field-mapping table of
`transformar_datos_para_bigquery` — every optional weather field of the row
is read from under one of these. -/
def claves_opcionales : List String :=
  ["currentTime", "timeZone", "temperature", "feelsLikeTemperature", "dewPoint",
   "heatIndex", "windChill", "weatherCondition", "precipitation", "airPressure",
   "relativeHumidity", "visibility", "wind", "uvIndex", "cloudCover",
   "thunderstormProbability", "isDaytime"]

/-- The wire payload shape built by `enriquecer_datos_clima`
(src/extractor/main.py, lines 297-325), in its insertion order. -/
def mensaje_enriquecido (marca nombre : String) (lat lon : Json) (descripcion : String)
    (raw : Json) : Json :=
  Json.obj
    [("marca_tiempo_extraccion", Json.str marca),
     ("nombre_ubicacion", Json.str nombre),
     ("coordenadas", Json.obj [("latitud", lat), ("longitud", lon)]),
     ("descripcion_ubicacion", Json.str descripcion),
     ("datos_clima_raw", raw),
     ("version_extractor", Json.str "2.0.0")]

/-- Erase the ingestion timestamp of a row (the field whose value is read
from the wall clock at flattening time). -/
def quitar_ingestion (fila : FilaBigQuery) : FilaBigQuery :=
  { fila with marca_tiempo_ingestion := "" }

/-- Whether the payload carries a parsable currentTime string, so the row
timestamp does not fall back to the wall clock. -/
def hora_parseable (datos : Json) : Bool :=
  match py_get datos "datos_clima_raw" (Json.obj []) with
  | Except.ok datos_clima_raw =>
    match extraer_valor_seguro datos_clima_raw ["currentTime"] (Json.str "") with
    | Json.str s => (fromisoformat (reemplazarZ s)).isSome
    | _ => false
  | Except.error _ => false

/-- C1: `extraer_valor_seguro` returns the exact leaf value whenever the
path resolves (every segment finds a mapping containing its key), and the
supplied default the instant any segment fails (key missing, or a
non-mapping cursor met before the path is exhausted); being a total Lean
function it raises no exception on any input. -/
theorem extraer_valor_seguro_correcto (datos : Json) (ruta : List String) (predeterminado : Json) :
    extraer_valor_seguro datos ruta predeterminado =
      (resolucion_spec datos ruta).getD predeterminado := by
  induction ruta generalizing datos with
  | nil => rfl
  | cons clave resto ih =>
    cases datos with
    | obj campos =>
      cases h : campos.lookup clave with
      | some valor =>
        simp only [extraer_valor_seguro, resolucion_spec, h]
        exact ih valor
      | none => simp only [extraer_valor_seguro, resolucion_spec, h, Option.getD_none]
    | null => rfl
    | bool b => rfl
    | num n => rfl
    | str s => rfl
    | arr elems => rfl

/-- C6: for every location name and parseable enrichment timestamp, the
archive key is the lowercased underscore-joined location name, then
zero-padded year (4 digits), month and day (2 digits) directories, then a
file name built from the same timestamp as yearmonthday_hourminutesecond
dot json. -/
theorem construir_ruta_gcs_formato (campos : List (String × Json)) (nombre marca : String) (f : Fecha)
    (hnombre : campos.lookup "nombre_ubicacion" = some (Json.str nombre))
    (hmarca : campos.lookup "marca_tiempo_extraccion" = some (Json.str marca))
    (hparse : fromisoformat (reemplazarZ marca) = some f) :
    construir_ruta_gcs (Json.obj campos) =
      Except.ok (minusculas_con_guiones nombre ++ "/" ++ pad 4 f.year ++ "/" ++
        pad 2 f.month ++ "/" ++ pad 2 f.day ++ "/" ++
        pad 4 f.year ++ pad 2 f.month ++ pad 2 f.day ++ "_" ++
        pad 2 f.hour ++ pad 2 f.minute ++ pad 2 f.second ++ ".json") := by
  simp only [construir_ruta_gcs, hnombre, hmarca, hparse, strftime_marca, String.append_assoc]

/-- C6 witness: location San Pedro de Atacama with enrichment timestamp
2024-03-05T14:07:09Z yields exactly the key
san_pedro_de_atacama/2024/03/05/20240305_140709.json. -/
theorem construir_ruta_gcs_formato_testigo :
    construir_ruta_gcs (Json.obj
      [("nombre_ubicacion", Json.str "San Pedro de Atacama"),
       ("marca_tiempo_extraccion", Json.str "2024-03-05T14:07:09Z")]) =
      Except.ok "san_pedro_de_atacama/2024/03/05/20240305_140709.json" := by
  have h := construir_ruta_gcs_formato
    [("nombre_ubicacion", Json.str "San Pedro de Atacama"),
     ("marca_tiempo_extraccion", Json.str "2024-03-05T14:07:09Z")]
    "San Pedro de Atacama" "2024-03-05T14:07:09Z"
    ⟨2024, 3, 5, 14, 7, 9, 0, some 0⟩ rfl rfl rfl
  exact h.trans rfl

/-- When no location raises an unexpected exception, the loop completes and
its final state is the initial one plus one detail per location in order,
the published and failed counters advanced by the success and
recognized-failure counts, and one errors entry per recognized failure. -/
theorem bucle_sin_inesperados (proceso : Ubicacion → ResultadoUbicacion) (l : List Ubicacion) :
    ∀ r : Resultados, (∀ u ∈ l, esInesperado (proceso u) = false) →
      bucle proceso l r = Except.ok
        { estado := r.estado,
          total_ubicaciones := r.total_ubicaciones,
          mensajes_publicados := r.mensajes_publicados + exitos proceso l,
          mensajes_fallidos := r.mensajes_fallidos + fallos proceso l,
          detalles := r.detalles ++ l.map (detalle_de proceso),
          errores := r.errores ++ (l.filter (fun u => esFalloReconocido (proceso u))).map
            (fun u => (u.nombre, mensajeResultado (proceso u))) } := by
  induction l with
  | nil => intro r _; simp [bucle, exitos, fallos]
  | cons u resto ih =>
    intro r h
    have hu : esInesperado (proceso u) = false := h u (List.mem_cons_self u resto)
    have hresto : ∀ v ∈ resto, esInesperado (proceso v) = false :=
      fun v hv => h v (List.mem_cons_of_mem u hv)
    cases hpu : proceso u with
    | publicado id_mensaje =>
      simp only [bucle, procesar_ubicacion, hpu]
      rw [ih _ hresto]
      simp [exitos, fallos, detalle_de, esFalloReconocido, hpu, List.filter_cons,
        List.append_assoc]
      omega
    | errorExtraccion e =>
      simp only [bucle, procesar_ubicacion, hpu]
      rw [ih _ hresto]
      simp [exitos, fallos, detalle_de, esFalloReconocido, mensajeResultado, hpu,
        List.filter_cons, List.append_assoc]
      omega
    | errorPublicacion e =>
      simp only [bucle, procesar_ubicacion, hpu]
      rw [ih _ hresto]
      simp [exitos, fallos, detalle_de, esFalloReconocido, mensajeResultado, hpu,
        List.filter_cons, List.append_assoc]
      omega
    | excepcionInesperada e => rw [hpu] at hu; simp [esInesperado] at hu

/-- Every location yields exactly one of success or recognized failure when
no unexpected exception occurs. -/
theorem exitos_mas_fallos (proceso : Ubicacion → ResultadoUbicacion) (l : List Ubicacion)
    (h : ∀ u ∈ l, esInesperado (proceso u) = false) :
    exitos proceso l + fallos proceso l = l.length := by
  induction l with
  | nil => rfl
  | cons u resto ih =>
    have hu : esInesperado (proceso u) = false := h u (List.mem_cons_self u resto)
    have hresto := ih (fun v hv => h v (List.mem_cons_of_mem u hv))
    cases hpu : proceso u <;>
      simp [exitos, fallos, List.filter_cons, hpu, esFalloReconocido] at hresto ⊢ <;>
      first
        | omega
        | (rw [hpu] at hu; simp [esInesperado] at hu)

/-- If some location raises an unexpected exception, the loop aborts with
an error. -/
theorem bucle_con_inesperado (proceso : Ubicacion → ResultadoUbicacion) (l : List Ubicacion) :
    ∀ r : Resultados, (∃ u ∈ l, esInesperado (proceso u) = true) →
      ∃ e, bucle proceso l r = Except.error e := by
  induction l with
  | nil => intro r h; simp at h
  | cons u resto ih =>
    intro r h
    cases hpu : proceso u with
    | excepcionInesperada e => exact ⟨e, by simp [bucle, procesar_ubicacion, hpu]⟩
    | publicado id_mensaje =>
      obtain ⟨v, hv, hvi⟩ := h
      rcases List.mem_cons.mp hv with rfl | hv2
      · rw [hpu] at hvi; simp [esInesperado] at hvi
      · obtain ⟨e, he⟩ := ih _ ⟨v, hv2, hvi⟩
        exact ⟨e, by simp only [bucle, procesar_ubicacion, hpu]; exact he⟩
    | errorExtraccion err =>
      obtain ⟨v, hv, hvi⟩ := h
      rcases List.mem_cons.mp hv with rfl | hv2
      · rw [hpu] at hvi; simp [esInesperado] at hvi
      · obtain ⟨e, he⟩ := ih _ ⟨v, hv2, hvi⟩
        exact ⟨e, by simp only [bucle, procesar_ubicacion, hpu]; exact he⟩
    | errorPublicacion err =>
      obtain ⟨v, hv, hvi⟩ := h
      rcases List.mem_cons.mp hv with rfl | hv2
      · rw [hpu] at hvi; simp [esInesperado] at hvi
      · obtain ⟨e, he⟩ := ih _ ⟨v, hv2, hvi⟩
        exact ⟨e, by simp only [bucle, procesar_ubicacion, hpu]; exact he⟩

/-- The overall state after a completed loop, read off lines 515-524 of
src/extractor/main.py: the failed-equals-total test is checked first, with
no total-positive guard. -/
theorem estado_tras_lote (ubicaciones : List Ubicacion)
    (proceso : Ubicacion → ResultadoUbicacion)
    (h : ∀ u ∈ ubicaciones, esInesperado (proceso u) = false) :
    estado_de (extraer_clima_con ubicaciones proceso) =
      (if fallos proceso ubicaciones = ubicaciones.length then "fallido"
       else if 0 < fallos proceso ubicaciones then "parcial" else "exitoso") := by
  simp only [extraer_clima_con]
  rw [bucle_sin_inesperados proceso ubicaciones _ h]
  by_cases hf : fallos proceso ubicaciones = ubicaciones.length <;>
    by_cases hz : 0 < fallos proceso ubicaciones <;>
    simp [estado_de, hf, hz]

/-- C2 counterexample: a completed batch run over zero locations has zero
failures, yet the recorded overall outcome is fallido, not exitoso as the
claim states for the failed-equals-zero case. -/
theorem clasificacion_lote_vacio_contraejemplo :
    fallos (fun _ => ResultadoUbicacion.publicado "id-1") [] = 0 ∧
    estado_de (extraer_clima_con [] (fun _ => ResultadoUbicacion.publicado "id-1")) = "fallido" ∧
    estado_de (extraer_clima_con [] (fun _ => ResultadoUbicacion.publicado "id-1")) ≠ "exitoso" :=
  ⟨rfl, rfl, by decide⟩

/-- C2 (amended): after a completed batch (no unexpected exception), the
overall outcome is fallido exactly when failed equals total (including the
degenerate zero-location run), parcial exactly when zero is less than
failed is less than total, and exitoso exactly when failed is zero and
total is positive. -/
theorem clasificacion_resultado_lote (ubicaciones : List Ubicacion)
    (proceso : Ubicacion → ResultadoUbicacion)
    (h : ∀ u ∈ ubicaciones, esInesperado (proceso u) = false) :
    (estado_de (extraer_clima_con ubicaciones proceso) = "fallido" ↔
      fallos proceso ubicaciones = ubicaciones.length) ∧
    (estado_de (extraer_clima_con ubicaciones proceso) = "parcial" ↔
      (0 < fallos proceso ubicaciones ∧ fallos proceso ubicaciones < ubicaciones.length)) ∧
    (estado_de (extraer_clima_con ubicaciones proceso) = "exitoso" ↔
      (fallos proceso ubicaciones = 0 ∧ 0 < ubicaciones.length)) := by
  have hle : fallos proceso ubicaciones ≤ ubicaciones.length := List.length_filter_le _ _
  have dfp : ("fallido" : String) ≠ "parcial" := by decide
  have dfe : ("fallido" : String) ≠ "exitoso" := by decide
  have dpf : ("parcial" : String) ≠ "fallido" := by decide
  have dpe : ("parcial" : String) ≠ "exitoso" := by decide
  have def1 : ("exitoso" : String) ≠ "fallido" := by decide
  have dep : ("exitoso" : String) ≠ "parcial" := by decide
  rw [estado_tras_lote ubicaciones proceso h]
  by_cases hf : fallos proceso ubicaciones = ubicaciones.length <;>
    by_cases hz : 0 < fallos proceso ubicaciones <;>
    simp [hf, hz, dfp, dfe, dpf, dpe, def1, dep] <;>
    omega

/-- C2 witness: the all-success run over the twenty configured locations is
classified exitoso. -/
theorem clasificacion_resultado_lote_testigo :
    estado_de (extraer_clima_con UBICACIONES_MONITOREO
      (fun _ => ResultadoUbicacion.publicado "m-1")) = "exitoso" :=
  ((clasificacion_resultado_lote UBICACIONES_MONITOREO
      (fun _ => ResultadoUbicacion.publicado "m-1") (fun _ _ => rfl)).2.2).mpr
    ⟨by decide, by decide⟩

/-- C4: after a completed batch loop (no unexpected exception) over
locations with pairwise distinct names, the summary satisfies: failed
equals the per-item failure count f, published equals N minus f, total
equals N, published plus failed equals N (total equals succeeded plus
failed), the details list has one entry per location, and the detail
location names are exactly the configured location names in order — hence
pairwise distinct and each one a configured Location identifier. -/
theorem invariantes_resultado_lote (ubicaciones : List Ubicacion)
    (proceso : Ubicacion → ResultadoUbicacion)
    (hnombres : (ubicaciones.map Ubicacion.nombre).Nodup)
    (h : ∀ u ∈ ubicaciones, esInesperado (proceso u) = false) :
    (resumen_de (extraer_clima_con ubicaciones proceso)).map Resultados.mensajes_fallidos =
      some (fallos proceso ubicaciones) ∧
    (resumen_de (extraer_clima_con ubicaciones proceso)).map Resultados.mensajes_publicados =
      some (ubicaciones.length - fallos proceso ubicaciones) ∧
    (resumen_de (extraer_clima_con ubicaciones proceso)).map Resultados.total_ubicaciones =
      some ubicaciones.length ∧
    (resumen_de (extraer_clima_con ubicaciones proceso)).map
        (fun r => r.mensajes_publicados + r.mensajes_fallidos) = some ubicaciones.length ∧
    (resumen_de (extraer_clima_con ubicaciones proceso)).map (fun r => r.detalles.length) =
      some ubicaciones.length ∧
    (resumen_de (extraer_clima_con ubicaciones proceso)).map
        (fun r => r.detalles.map Detalle.ubicacion) = some (ubicaciones.map Ubicacion.nombre) ∧
    (resumen_de (extraer_clima_con ubicaciones proceso)).map
        (fun r => decide (r.detalles.map Detalle.ubicacion).Nodup) = some true := by
  have hef := exitos_mas_fallos proceso ubicaciones h
  have hnom : (ubicaciones.map (detalle_de proceso)).map Detalle.ubicacion =
      ubicaciones.map Ubicacion.nombre := by
    rw [List.map_map]
    apply List.map_congr_left
    intro u _
    show (detalle_de proceso u).ubicacion = u.nombre
    cases hp : proceso u <;> simp [detalle_de, hp]
  simp only [extraer_clima_con]
  rw [bucle_sin_inesperados proceso ubicaciones _ h]
  by_cases hf : fallos proceso ubicaciones = ubicaciones.length <;>
    by_cases hz : 0 < fallos proceso ubicaciones <;>
    simp [resumen_de, hf, hz, hnom, hnombres] <;>
    omega

/-- C4 witness: the nineteen-success one-failure run over the twenty
configured locations. -/
theorem invariantes_resultado_lote_testigo :
    (resumen_de (extraer_clima_con UBICACIONES_MONITOREO proceso_prueba_c4)).map
      Resultados.mensajes_fallidos = some 1 ∧
    (resumen_de (extraer_clima_con UBICACIONES_MONITOREO proceso_prueba_c4)).map
      Resultados.mensajes_publicados = some 19 ∧
    (resumen_de (extraer_clima_con UBICACIONES_MONITOREO proceso_prueba_c4)).map
      Resultados.total_ubicaciones = some 20 ∧
    (resumen_de (extraer_clima_con UBICACIONES_MONITOREO proceso_prueba_c4)).map
      (fun r => r.detalles.length) = some 20 := by
  obtain ⟨h1, h2, h3, _h4, h5, _h6, _h7⟩ :=
    invariantes_resultado_lote UBICACIONES_MONITOREO proceso_prueba_c4
      (by decide)
      (by
        intro u _
        cases hc : u.nombre == "Santiago" <;> simp [proceso_prueba_c4, hc, esInesperado])
  exact ⟨h1.trans (by decide), h2.trans (by decide), h3.trans (by decide), h5.trans (by decide)⟩

/-- C7: exactly the two recognized per-item failure kinds are absorbed by
the loop — with none unexpected the loop completes, records one detail per
location (so it continued past each recognized failure, which appears as a
fallido detail carrying the error text and is counted in the failed
counter); if any location raises an unexpected exception the whole batch
aborts with the generic fallido response (tipo desconocido, code 500)
carrying no summary, so the item is never recorded as a per-item failure. -/
theorem manejo_fallos_lote (ubicaciones : List Ubicacion)
    (proceso : Ubicacion → ResultadoUbicacion) :
    ((∃ u ∈ ubicaciones, esInesperado (proceso u) = true) →
      tipo_error_de (extraer_clima_con ubicaciones proceso) = some "desconocido" ∧
      codigo_de (extraer_clima_con ubicaciones proceso) = 500 ∧
      resumen_de (extraer_clima_con ubicaciones proceso) = none) ∧
    ((∀ u ∈ ubicaciones, esInesperado (proceso u) = false) →
      (resumen_de (extraer_clima_con ubicaciones proceso)).map (fun r => r.detalles) =
        some (ubicaciones.map (detalle_de proceso)) ∧
      (resumen_de (extraer_clima_con ubicaciones proceso)).map Resultados.mensajes_fallidos =
        some (fallos proceso ubicaciones) ∧
      ∀ u ∈ ubicaciones, esFalloReconocido (proceso u) = true →
        detalle_de proceso u =
          ⟨u.nombre, "fallido", none, some (mensajeResultado (proceso u))⟩) := by
  constructor
  · intro hex
    obtain ⟨e, he⟩ := bucle_con_inesperado proceso ubicaciones
      ⟨"exitoso", ubicaciones.length, 0, 0, [], []⟩ hex
    simp only [extraer_clima_con]
    rw [he]
    simp [tipo_error_de, codigo_de, resumen_de]
  · intro h
    have hdet : ∀ u ∈ ubicaciones, esFalloReconocido (proceso u) = true →
        detalle_de proceso u =
          ⟨u.nombre, "fallido", none, some (mensajeResultado (proceso u))⟩ := by
      intro u _ hrec
      cases hp : proceso u with
      | publicado id_mensaje => rw [hp] at hrec; simp [esFalloReconocido] at hrec
      | excepcionInesperada e => rw [hp] at hrec; simp [esFalloReconocido] at hrec
      | errorExtraccion e => simp [detalle_de, mensajeResultado, hp]
      | errorPublicacion e => simp [detalle_de, mensajeResultado, hp]
    refine ⟨?_, ?_, hdet⟩ <;>
      (simp only [extraer_clima_con]
       rw [bucle_sin_inesperados proceso ubicaciones _ h]
       by_cases hf : fallos proceso ubicaciones = ubicaciones.length <;>
         by_cases hz : 0 < fallos proceso ubicaciones <;>
         simp [resumen_de, hf, hz])

/-- C7 witness: an all-unexpected run aborts with the generic response and
no summary, while the one-recognized-failure run completes with a full
details list. -/
theorem manejo_fallos_lote_testigo :
    (tipo_error_de (extraer_clima_con UBICACIONES_MONITOREO
        (fun _ => ResultadoUbicacion.excepcionInesperada "KeyError")) = some "desconocido" ∧
      codigo_de (extraer_clima_con UBICACIONES_MONITOREO
        (fun _ => ResultadoUbicacion.excepcionInesperada "KeyError")) = 500 ∧
      resumen_de (extraer_clima_con UBICACIONES_MONITOREO
        (fun _ => ResultadoUbicacion.excepcionInesperada "KeyError")) = none) ∧
    (resumen_de (extraer_clima_con UBICACIONES_MONITOREO proceso_prueba_c4)).map
      (fun r => r.detalles) = some (UBICACIONES_MONITOREO.map (detalle_de proceso_prueba_c4)) := by
  constructor
  · exact (manejo_fallos_lote UBICACIONES_MONITOREO
      (fun _ => ResultadoUbicacion.excepcionInesperada "KeyError")).1
      ⟨⟨"Arica", -18.4746, -70.2979, "Arica, Chile - Ciudad de la Eterna Primavera"⟩,
        List.mem_cons_self _ _, rfl⟩
  · exact ((manejo_fallos_lote UBICACIONES_MONITOREO proceso_prueba_c4).2
      (by
        intro u _
        cases hc : u.nombre == "Santiago" <;> simp [proceso_prueba_c4, hc, esInesperado])).1

/-- C8: the raw payload's currentTime is parsed as ISO-8601 (a trailing
literal Z accepted as the UTC offset, via the Z replacement); when the
field is absent (so the empty-string default is seen), unparsable, or not
a string at all, the current wall-clock UTC reading is substituted
silently; and the flattened row's timestamp is exactly the isoformat of
this value, with no error raised in any case. -/
theorem manejo_marca_tiempo (datos_clima_raw : Json) (ahora : Fecha) :
    (∀ s f, extraer_valor_seguro datos_clima_raw ["currentTime"] (Json.str "") = Json.str s →
      fromisoformat (reemplazarZ s) = some f → fecha_hora_de datos_clima_raw ahora = f) ∧
    (∀ s, extraer_valor_seguro datos_clima_raw ["currentTime"] (Json.str "") = Json.str s →
      fromisoformat (reemplazarZ s) = none → fecha_hora_de datos_clima_raw ahora = ahora) ∧
    (∀ v, extraer_valor_seguro datos_clima_raw ["currentTime"] (Json.str "") = v →
      (∀ s, v ≠ Json.str s) → fecha_hora_de datos_clima_raw ahora = ahora) ∧
    (∀ marca nombre lat lon descripcion uri ahora2,
      (transformar_datos_para_bigquery
          (mensaje_enriquecido marca nombre lat lon descripcion datos_clima_raw)
          uri ahora ahora2).map FilaBigQuery.hora_actual =
        Except.ok (isoformat (fecha_hora_de datos_clima_raw ahora))) := by
  refine ⟨?_, ?_, ?_, ?_⟩
  · intro s f hs hf
    simp [fecha_hora_de, hs, hf]
  · intro s hs hf
    simp [fecha_hora_de, hs, hf]
  · intro v hv hns
    cases v with
    | str s => exact absurd rfl (hns s)
    | null => simp [fecha_hora_de, hv]
    | bool b => simp [fecha_hora_de, hv]
    | num n => simp [fecha_hora_de, hv]
    | arr elems => simp [fecha_hora_de, hv]
    | obj campos => simp [fecha_hora_de, hv]
  · intro marca nombre lat lon descripcion uri ahora2
    rfl

/-- C8 witness: a payload with currentTime carrying a trailing Z parses to
that instant; the empty payload and a numeric currentTime both fall back to
the supplied wall-clock reading. -/
theorem manejo_marca_tiempo_testigo :
    fecha_hora_de (Json.obj [("currentTime", Json.str "2024-03-05T14:07:09Z")])
      ⟨2030, 1, 2, 3, 4, 5, 0, some 0⟩ = ⟨2024, 3, 5, 14, 7, 9, 0, some 0⟩ ∧
    fecha_hora_de (Json.obj []) ⟨2030, 1, 2, 3, 4, 5, 0, some 0⟩ =
      ⟨2030, 1, 2, 3, 4, 5, 0, some 0⟩ ∧
    fecha_hora_de (Json.obj [("currentTime", Json.num 5)]) ⟨2030, 1, 2, 3, 4, 5, 0, some 0⟩ =
      ⟨2030, 1, 2, 3, 4, 5, 0, some 0⟩ :=
  ⟨(manejo_marca_tiempo _ _).1 "2024-03-05T14:07:09Z" _ rfl rfl,
   (manejo_marca_tiempo _ _).2.1 "" rfl rfl,
   (manejo_marca_tiempo _ _).2.2.1 (Json.num 5) rfl (fun _ h => Json.noConfusion h)⟩

/-- C3: flattening an EnrichedReading whose raw payload is missing every
optional field (none of the mapped top-level keys present, e.g. the empty
mapping) still succeeds and yields a complete row: every optional weather
field is null, while the metadata — location name, latitude, longitude,
ingestion timestamp and archive reference — is populated; the row timestamp
falls back to the wall clock and the raw payload is re-serialized verbatim. -/
theorem fila_completa_sin_opcionales (marca nombre : String) (lat lon : Json)
    (descripcion : String) (rc : List (String × Json)) (uri : String) (t1 t2 : Fecha)
    (hrc : ∀ k ∈ claves_opcionales, rc.lookup k = none) :
    transformar_datos_para_bigquery
        (mensaje_enriquecido marca nombre lat lon descripcion (Json.obj rc)) uri t1 t2 =
      Except.ok
        { nombre_ubicacion := Json.str nombre,
          latitud := lat,
          longitud := lon,
          hora_actual := isoformat t1,
          zona_horaria := Json.null,
          temperatura := Json.null,
          sensacion_termica := Json.null,
          punto_rocio := Json.null,
          indice_calor := Json.null,
          sensacion_viento := Json.null,
          condicion_clima := Json.null,
          descripcion_clima := Json.null,
          probabilidad_precipitacion := Json.null,
          precipitacion_acumulada := Json.null,
          presion_aire := Json.null,
          velocidad_viento := Json.null,
          direccion_viento := Json.null,
          visibilidad := Json.null,
          humedad_relativa := Json.null,
          indice_uv := Json.null,
          probabilidad_tormenta := Json.null,
          cobertura_nubes := Json.null,
          es_dia := Json.null,
          marca_tiempo_ingestion := isoformat t2,
          uri_datos_crudos := uri,
          datos_json_crudo := serializar (Json.obj rc) } := by
  have hz : ∀ (k : String) (resto : List String) (d : Json), rc.lookup k = none →
      extraer_valor_seguro (Json.obj rc) (k :: resto) d = d := by
    intro k resto d hk
    simp [extraer_valor_seguro, hk]
  have hfecha : fecha_hora_de (Json.obj rc) t1 = t1 := by
    unfold fecha_hora_de
    rw [hz "currentTime" [] (Json.str "") (hrc _ (by decide))]
    rfl
  have e01 := hz "timeZone" ["id"] Json.null (hrc _ (by decide))
  have e02 := hz "temperature" ["degrees"] Json.null (hrc _ (by decide))
  have e03 := hz "feelsLikeTemperature" ["degrees"] Json.null (hrc _ (by decide))
  have e04 := hz "dewPoint" ["degrees"] Json.null (hrc _ (by decide))
  have e05 := hz "heatIndex" ["degrees"] Json.null (hrc _ (by decide))
  have e06 := hz "windChill" ["degrees"] Json.null (hrc _ (by decide))
  have e07 := hz "weatherCondition" ["type"] Json.null (hrc _ (by decide))
  have e08 := hz "weatherCondition" ["description", "text"] Json.null (hrc _ (by decide))
  have e09 := hz "precipitation" ["probability", "percent"] Json.null (hrc _ (by decide))
  have e10 := hz "precipitation" ["qpf", "quantity"] Json.null (hrc _ (by decide))
  have e11 := hz "airPressure" ["meanSeaLevelMillibars"] Json.null (hrc _ (by decide))
  have e12 := hz "wind" ["speed", "value"] Json.null (hrc _ (by decide))
  have e13 := hz "wind" ["direction", "degrees"] Json.null (hrc _ (by decide))
  have e14 := hz "visibility" ["distance"] Json.null (hrc _ (by decide))
  have e15 := hz "relativeHumidity" [] Json.null (hrc _ (by decide))
  have e16 := hz "uvIndex" [] Json.null (hrc _ (by decide))
  have e17 := hz "thunderstormProbability" [] Json.null (hrc _ (by decide))
  have e18 := hz "cloudCover" [] Json.null (hrc _ (by decide))
  have e19 := hz "isDaytime" [] Json.null (hrc _ (by decide))
  simp [mensaje_enriquecido, transformar_datos_para_bigquery, py_get, List.lookup, hfecha,
    e01, e02, e03, e04, e05, e06, e07, e08, e09, e10,
    e11, e12, e13, e14, e15, e16, e17, e18, e19]

/-- C3 witness: the empty raw payload flattens to the all-null row with
populated metadata. -/
theorem fila_completa_sin_opcionales_testigo :
    transformar_datos_para_bigquery
        (mensaje_enriquecido "2024-03-05T14:08:11Z" "Santiago"
          (Json.num (-33)) (Json.num (-70)) "Santiago, Chile" (Json.obj []))
        "gs://datos-clima-bronce/santiago/2024/03/05/20240305_140811.json"
        ⟨2024, 3, 5, 14, 9, 0, 0, some 0⟩ ⟨2024, 3, 5, 14, 9, 1, 0, some 0⟩ =
      Except.ok
        { nombre_ubicacion := Json.str "Santiago",
          latitud := Json.num (-33),
          longitud := Json.num (-70),
          hora_actual := "2024-03-05T14:09:00+00:00",
          zona_horaria := Json.null,
          temperatura := Json.null,
          sensacion_termica := Json.null,
          punto_rocio := Json.null,
          indice_calor := Json.null,
          sensacion_viento := Json.null,
          condicion_clima := Json.null,
          descripcion_clima := Json.null,
          probabilidad_precipitacion := Json.null,
          precipitacion_acumulada := Json.null,
          presion_aire := Json.null,
          velocidad_viento := Json.null,
          direccion_viento := Json.null,
          visibilidad := Json.null,
          humedad_relativa := Json.null,
          indice_uv := Json.null,
          probabilidad_tormenta := Json.null,
          cobertura_nubes := Json.null,
          es_dia := Json.null,
          marca_tiempo_ingestion := "2024-03-05T14:09:01+00:00",
          uri_datos_crudos := "gs://datos-clima-bronce/santiago/2024/03/05/20240305_140811.json",
          datos_json_crudo := "\x7b\x7d" } := by
  have h := fila_completa_sin_opcionales "2024-03-05T14:08:11Z" "Santiago"
    (Json.num (-33)) (Json.num (-70)) "Santiago, Chile" []
    "gs://datos-clima-bronce/santiago/2024/03/05/20240305_140811.json"
    ⟨2024, 3, 5, 14, 9, 0, 0, some 0⟩ ⟨2024, 3, 5, 14, 9, 1, 0, some 0⟩ (fun _ _ => rfl)
  exact h.trans (by rfl)

/-- C9 counterexample: flattening the same EnrichedReading (raw payload
with no parsable currentTime) with the same archive reference twice, at two
different wall-clock instants, changes the row timestamp hora_actual as
well — the outputs differ in a field other than the ingestion timestamp,
contradicting the claim as stated. -/
theorem idempotencia_fila_contraejemplo :
    (transformar_datos_para_bigquery
        (mensaje_enriquecido "2024-03-05T14:08:11Z" "Santiago" (Json.num (-33)) (Json.num (-70))
          "Santiago, Chile" (Json.obj []))
        "gs://datos-clima-bronce/santiago/2024/03/05/20240305_140811.json"
        ⟨2024, 3, 5, 14, 9, 0, 0, some 0⟩ ⟨2024, 3, 5, 14, 9, 0, 0, some 0⟩).toOption.map
        (fun fila => fila.hora_actual) ≠
      (transformar_datos_para_bigquery
        (mensaje_enriquecido "2024-03-05T14:08:11Z" "Santiago" (Json.num (-33)) (Json.num (-70))
          "Santiago, Chile" (Json.obj []))
        "gs://datos-clima-bronce/santiago/2024/03/05/20240305_140811.json"
        ⟨2024, 3, 5, 14, 10, 0, 0, some 0⟩ ⟨2024, 3, 5, 14, 10, 0, 0, some 0⟩).toOption.map
        (fun fila => fila.hora_actual) := by
  decide

/-- C9 (amended): provided the raw payload's currentTime field parses as an
ISO-8601 timestamp, re-flattening the same EnrichedReading with the same
archive reference twice yields identical output in every field except the
ingestion timestamp (wall-clock readings do not influence any other field);
when currentTime is absent or unparsable the row timestamp also tracks the
wall clock, so only the ingestion-field exemption fails. -/
theorem idempotencia_fila (datos : Json) (uri : String) (t1 t2 t1b t2b : Fecha)
    (h : hora_parseable datos = true) :
    (transformar_datos_para_bigquery datos uri t1 t2).map quitar_ingestion =
      (transformar_datos_para_bigquery datos uri t1b t2b).map quitar_ingestion := by
  unfold hora_parseable at h
  cases hg : py_get datos "datos_clima_raw" (Json.obj []) with
  | error e => rw [hg] at h; simp at h
  | ok datos_clima_raw =>
    rw [hg] at h
    replace h : (match extraer_valor_seguro datos_clima_raw ["currentTime"] (Json.str "") with
        | Json.str s2 => (fromisoformat (reemplazarZ s2)).isSome
        | _ => false) = true := h
    have hfecha : fecha_hora_de datos_clima_raw t1 = fecha_hora_de datos_clima_raw t1b := by
      unfold fecha_hora_de
      cases hv : extraer_valor_seguro datos_clima_raw ["currentTime"] (Json.str "") with
      | str s =>
        rw [hv] at h
        change (fromisoformat (reemplazarZ s)).isSome = true at h
        cases hp : fromisoformat (reemplazarZ s) with
        | none => rw [hp] at h; simp at h
        | some f => simp [hp]
      | null => rw [hv] at h; simp at h
      | bool b => rw [hv] at h; simp at h
      | num n => rw [hv] at h; simp at h
      | arr elems => rw [hv] at h; simp at h
      | obj campos => rw [hv] at h; simp at h
    unfold transformar_datos_para_bigquery
    rw [hg]
    cases hc : py_get datos "coordenadas" (Json.obj []) with
    | error e => simp [hc]
    | ok coordenadas =>
      cases hn : py_get datos "nombre_ubicacion" Json.null with
      | error e => simp [hc, hn]
      | ok nombre =>
        cases hla : py_get coordenadas "latitud" Json.null with
        | error e => simp [hc, hn, hla]
        | ok latitud =>
          cases hlo : py_get coordenadas "longitud" Json.null with
          | error e => simp [hc, hn, hla, hlo]
          | ok longitud =>
            simp [hc, hn, hla, hlo, Except.map, quitar_ingestion, hfecha,
              FilaBigQuery.mk.injEq]

/-- C9 witness: with a parsable currentTime, two runs at distinct
wall-clock instants agree on every field once the ingestion timestamp is
erased. -/
theorem idempotencia_fila_testigo :
    hora_parseable
      (mensaje_enriquecido "2024-03-05T14:08:11Z" "Santiago" (Json.num (-33)) (Json.num (-70))
        "Santiago, Chile" (Json.obj [("currentTime", Json.str "2024-03-05T14:07:09Z")])) = true ∧
    (transformar_datos_para_bigquery
        (mensaje_enriquecido "2024-03-05T14:08:11Z" "Santiago" (Json.num (-33)) (Json.num (-70))
          "Santiago, Chile" (Json.obj [("currentTime", Json.str "2024-03-05T14:07:09Z")]))
        "gs://datos-clima-bronce/santiago/2024/03/05/20240305_140811.json"
        ⟨2024, 3, 5, 14, 9, 0, 0, some 0⟩ ⟨2024, 3, 5, 14, 9, 1, 0, some 0⟩).map quitar_ingestion =
      (transformar_datos_para_bigquery
        (mensaje_enriquecido "2024-03-05T14:08:11Z" "Santiago" (Json.num (-33)) (Json.num (-70))
          "Santiago, Chile" (Json.obj [("currentTime", Json.str "2024-03-05T14:07:09Z")]))
        "gs://datos-clima-bronce/santiago/2024/03/05/20240305_140811.json"
        ⟨2025, 6, 7, 8, 9, 10, 0, some 0⟩ ⟨2025, 6, 7, 8, 9, 11, 0, some 0⟩).map quitar_ingestion :=
  ⟨rfl, idempotencia_fila _ _ _ _ _ _ rfl⟩

/-- On a mapping input, any error the required-fields loop raises is a
validation error. -/
theorem verificar_campos_error_validacion (campos : List (String × Json)) :
    ∀ (ks : List String) (e : ErrorProc),
      verificar_campos (Json.obj campos) ks = Except.error e → esValidacion e = true := by
  intro ks
  induction ks with
  | nil => intro e he; exact absurd he (by simp [verificar_campos])
  | cons k resto ih =>
    intro e he
    cases hk : (campos.lookup k).isNone with
    | true =>
      have hred : verificar_campos (Json.obj campos) (k :: resto) =
          Except.error (ErrorProc.validacion ("Campo requerido faltante: " ++ k)) := by
        simp [verificar_campos, py_no_contiene, hk]
      rw [hred] at he
      injection he with h2
      subst h2
      rfl
    | false =>
      have hred : verificar_campos (Json.obj campos) (k :: resto) =
          verificar_campos (Json.obj campos) resto := by
        simp [verificar_campos, py_no_contiene, hk]
      rw [hred] at he
      exact ih e he

/-- A missing required key makes the required-fields loop raise a
validation error. -/
theorem verificar_campos_falta (campos : List (String × Json)) :
    ∀ ks : List String, (∃ k ∈ ks, campos.lookup k = none) →
      ∃ m, verificar_campos (Json.obj campos) ks = Except.error (ErrorProc.validacion m) := by
  intro ks
  induction ks with
  | nil => intro h; simp at h
  | cons k resto ih =>
    intro h
    cases hk : (campos.lookup k).isNone with
    | true =>
      exact ⟨"Campo requerido faltante: " ++ k, by simp [verificar_campos, py_no_contiene, hk]⟩
    | false =>
      obtain ⟨k2, hk2, hnone⟩ := h
      rcases List.mem_cons.mp hk2 with rfl | hk2b
      · rw [hnone] at hk; simp at hk
      · obtain ⟨m, hm⟩ := ih ⟨k2, hk2b, hnone⟩
        exact ⟨m, by simp [verificar_campos, py_no_contiene, hk, hm]⟩

/-- C5: a decoded message whose payload mapping is missing one of the four
required top-level keys, or whose coordinates mapping lacks latitud or
longitud, makes validation raise `ErrorValidacionDatos`; the handler then
returns normally discarding the message (no re-raise, no retry), and
neither the archive upload nor the analytical insert is ever attempted. -/
theorem mensaje_invalido_descartado (env : Entorno) (evento : EventoNube)
    (campos : List (String × Json))
    (hdec : decodificar_mensaje_pubsub env (evento.mensaje.getD ⟨none⟩) =
      Except.ok (Json.obj campos))
    (hmal : (∃ k ∈ campos_requeridos, campos.lookup k = none) ∨
      (∃ cs, campos.lookup "coordenadas" = some (Json.obj cs) ∧
        (cs.lookup "latitud" = none ∨ cs.lookup "longitud" = none))) :
    lanzaValidacion (validar_datos_clima (Json.obj campos)) = true ∧
    esDescartado (procesar_clima env evento).1 = true ∧
    (procesar_clima env evento).2 = [] := by
  have hval : ∃ m, validar_datos_clima (Json.obj campos) =
      Except.error (ErrorProc.validacion m) := by
    rcases hmal with hfalta | ⟨cs, hcs, hco⟩
    · obtain ⟨m, hm⟩ := verificar_campos_falta campos campos_requeridos hfalta
      exact ⟨m, by simp [validar_datos_clima, hm]⟩
    · cases hv : verificar_campos (Json.obj campos) campos_requeridos with
      | error e =>
        have he := verificar_campos_error_validacion campos campos_requeridos e hv
        cases e with
        | validacion m => exact ⟨m, by simp [validar_datos_clima, hv]⟩
        | almacenamientoGCS m => simp [esValidacion] at he
        | almacenamientoBigQuery m => simp [esValidacion] at he
        | procesamiento m => simp [esValidacion] at he
        | excepcion m => simp [esValidacion] at he
      | ok u =>
        rcases hco with hlat | hlon
        · exact ⟨"Coordenadas incompletas", by
            simp [validar_datos_clima, hv, py_get, hcs, py_no_contiene, hlat]⟩
        · cases hlat2 : (cs.lookup "latitud").isNone with
          | true =>
            exact ⟨"Coordenadas incompletas", by
              simp [validar_datos_clima, hv, py_get, hcs, py_no_contiene, hlat2]⟩
          | false =>
            exact ⟨"Coordenadas incompletas", by
              simp [validar_datos_clima, hv, py_get, hcs, py_no_contiene, hlat2, hlon]⟩
  obtain ⟨m, hm⟩ := hval
  refine ⟨by simp [lanzaValidacion, hm, esValidacion], ?_, ?_⟩ <;>
    simp [procesar_clima, hdec, hm, traducir_excepcion, esDescartado]

/-- C5 witness: a message whose payload lacks coordenadas is discarded with
no storage effect. -/
theorem mensaje_invalido_descartado_testigo :
    esDescartado (procesar_clima
      ⟨fun s => some s, fun _ => some (Json.obj [("nombre_ubicacion", Json.str "Santiago")]),
        none, none, ⟨2024, 1, 1, 0, 0, 0, 0, some 0⟩, ⟨2024, 1, 1, 0, 0, 0, 0, some 0⟩⟩
      ⟨some ⟨some "ZGF0b3M="⟩⟩).1 = true ∧
    (procesar_clima
      ⟨fun s => some s, fun _ => some (Json.obj [("nombre_ubicacion", Json.str "Santiago")]),
        none, none, ⟨2024, 1, 1, 0, 0, 0, 0, some 0⟩, ⟨2024, 1, 1, 0, 0, 0, 0, some 0⟩⟩
      ⟨some ⟨some "ZGF0b3M="⟩⟩).2 = [] := by
  have h := mensaje_invalido_descartado
    ⟨fun s => some s, fun _ => some (Json.obj [("nombre_ubicacion", Json.str "Santiago")]),
      none, none, ⟨2024, 1, 1, 0, 0, 0, 0, some 0⟩, ⟨2024, 1, 1, 0, 0, 0, 0, some 0⟩⟩
    ⟨some ⟨some "ZGF0b3M="⟩⟩
    [("nombre_ubicacion", Json.str "Santiago")]
    rfl
    (Or.inl ⟨"coordenadas", by decide, rfl⟩)
  exact ⟨h.2.1, h.2.2⟩

/-- C10: an undecodable transport envelope — data absent or empty, base64
decoding failing, or the decoded text not parsing as JSON — makes the decode
step raise `ErrorValidacionDatos` (not a storage, processing or generic
error), so the handler discards the message without re-raising and attempts
no archive or sink call. -/
theorem mensaje_indescifrable_descartado (env : Entorno) (evento : EventoNube)
    (hfalla : (evento.mensaje.getD ⟨none⟩).data = none ∨
      (evento.mensaje.getD ⟨none⟩).data = some "" ∨
      (∃ s, (evento.mensaje.getD ⟨none⟩).data = some s ∧ (s == "") = false ∧
        env.b64decode s = none) ∨
      (∃ s t, (evento.mensaje.getD ⟨none⟩).data = some s ∧ (s == "") = false ∧
        env.b64decode s = some t ∧ env.parseJson t = none)) :
    lanzaValidacion (decodificar_mensaje_pubsub env (evento.mensaje.getD ⟨none⟩)) = true ∧
    esDescartado (procesar_clima env evento).1 = true ∧
    (procesar_clima env evento).2 = [] := by
  have hdec : ∃ m, decodificar_mensaje_pubsub env (evento.mensaje.getD ⟨none⟩) =
      Except.error (ErrorProc.validacion m) := by
    rcases hfalla with h0 | h0 | ⟨s, hs, hne, hb⟩ | ⟨s, t, hs, hne, hb, hj⟩
    · exact ⟨"Mensaje Pub/Sub sin datos", by simp [decodificar_mensaje_pubsub, h0]⟩
    · exact ⟨"Mensaje Pub/Sub sin datos", by simp [decodificar_mensaje_pubsub, h0]⟩
    · exact ⟨"Error al decodificar mensaje Pub/Sub", by
        simp [decodificar_mensaje_pubsub, hs, hne, hb]⟩
    · exact ⟨"Error al parsear JSON del mensaje", by
        simp [decodificar_mensaje_pubsub, hs, hne, hb, hj]⟩
  obtain ⟨m, hm⟩ := hdec
  refine ⟨by simp [lanzaValidacion, hm, esValidacion], ?_, ?_⟩ <;>
    simp [procesar_clima, hm, traducir_excepcion, esDescartado]

/-- C10 witness: a message whose decoded bytes are not valid JSON is
discarded with no storage effect. -/
theorem mensaje_indescifrable_descartado_testigo :
    esDescartado (procesar_clima
      ⟨fun s => some s, fun _ => none, none, none,
        ⟨2024, 1, 1, 0, 0, 0, 0, some 0⟩, ⟨2024, 1, 1, 0, 0, 0, 0, some 0⟩⟩
      ⟨some ⟨some "no es json"⟩⟩).1 = true ∧
    (procesar_clima
      ⟨fun s => some s, fun _ => none, none, none,
        ⟨2024, 1, 1, 0, 0, 0, 0, some 0⟩, ⟨2024, 1, 1, 0, 0, 0, 0, some 0⟩⟩
      ⟨some ⟨some "no es json"⟩⟩).2 = [] := by
  have h := mensaje_indescifrable_descartado
    ⟨fun s => some s, fun _ => none, none, none,
      ⟨2024, 1, 1, 0, 0, 0, 0, some 0⟩, ⟨2024, 1, 1, 0, 0, 0, 0, some 0⟩⟩
    ⟨some ⟨some "no es json"⟩⟩
    (Or.inr (Or.inr (Or.inr ⟨"no es json", "no es json", rfl, rfl, rfl, rfl⟩)))
  exact ⟨h.2.1, h.2.2⟩
